import Mathlib

/-!
Shallow embedding of `src/rpi_electronics_playground/ultrasonic_sensor.py`.

Python floats are modelled as exact rationals (`ℚ`).  Python's builtin
`round(x, n)` rounds half to even at the `n`-th decimal digit; it is
embedded as `pyRound`.  The mutable `UltrasonicSensor` object is embedded
as an explicit state record, and methods become functions from the state
(plus an oracle for the raw hardware samples) to an updated state and a
return value.
-/

attribute [local semireducible] Rat.add Rat.sub Rat.mul Rat.inv

/-- Round a rational to the nearest integer, ties going to the even
integer (the rounding mode of Python's builtin `round`). -/
def roundHalfToEven (q : ℚ) : ℤ :=
  let f := ⌊q⌋
  if q - f < 1 / 2 then f
  else if 1 / 2 < q - f then f + 1
  else if f % 2 = 0 then f else f + 1

/-- Embedding of Python's `round(q, ndigits)` for a non-negative digit
count: half-to-even rounding at the given decimal place. -/
def pyRound (q : ℚ) (ndigits : ℕ) : ℚ :=
  (roundHalfToEven (q * 10 ^ ndigits) : ℚ) / 10 ^ ndigits

/-- State of the `UltrasonicSensor` object: constructor configuration
plus the two mutable fields (`readings_buffer`, `last_stable_reading`).
The buffer is a `deque(maxlen=filter_size)`, oldest element first. -/
structure UltrasonicSensor where
  trig_pin : ℤ
  echo_pin : ℤ
  sample_count : ℕ
  filter_size : ℕ
  outlier_threshold : ℚ
  readings_buffer : List ℚ
  last_stable_reading : Option ℚ
deriving DecidableEq

/-- The state built by `UltrasonicSensor.__init__`: empty moving-average
buffer and no last stable reading. -/
def init_sensor (trig echo : ℤ) (sample_count filter_size : ℕ)
    (outlier_threshold : ℚ) : UltrasonicSensor :=
  { trig_pin := trig
    echo_pin := echo
    sample_count := sample_count
    filter_size := filter_size
    outlier_threshold := outlier_threshold
    readings_buffer := []
    last_stable_reading := none }

/-- Embedding of `UltrasonicSensor._is_outlier`: with no reference
reading nothing is an outlier; otherwise a reading is an outlier exactly
when its absolute deviation from `last_stable_reading` exceeds
`outlier_threshold`. -/
def is_outlier (s : UltrasonicSensor) (reading : ℚ) : Bool :=
  match s.last_stable_reading with
  | none => false
  | some lsr => decide (s.outlier_threshold < |reading - lsr|)

/-- Insert a rational into an already sorted list, keeping it sorted. -/
def insertSorted (x : ℚ) : List ℚ → List ℚ
  | [] => [x]
  | y :: ys => if x ≤ y then x :: y :: ys else y :: insertSorted x ys

/-- Sort a list of rationals in non-decreasing order (insertion sort),
standing in for Python's `sorted`. -/
def sortListQ (l : List ℚ) : List ℚ := l.foldr insertSorted []

/-- Embedding of `statistics.median`: middle element of the sorted data
for odd length, average of the two middle elements for even length. -/
def median (l : List ℚ) : ℚ :=
  let sorted := sortListQ l
  let n := l.length
  if n % 2 = 1 then sorted.getD (n / 2) 0
  else (sorted.getD (n / 2 - 1) 0 + sorted.getD (n / 2) 0) / 2

/-- Embedding of `statistics.mean` (exact rational mean). -/
def mean (l : List ℚ) : ℚ := l.sum / (l.length : ℚ)

/-- Embedding of `statistics.variance` (sample variance with Bessel
correction, denominator `n - 1`). -/
def variance (l : List ℚ) : ℚ :=
  (l.map (fun x => (x - mean l) ^ 2)).sum / ((l.length : ℚ) - 1)

/-- Appending to a `collections.deque` with `maxlen`: the new element
goes on the right and the oldest elements are evicted from the left so
that at most `maxlen` elements remain. -/
def dequeAppend (maxlen : ℕ) (buf : List ℚ) (x : ℚ) : List ℚ :=
  let b := buf ++ [x]
  if maxlen < b.length then b.drop (b.length - maxlen) else b

/-- The sampling loop of `UltrasonicSensor.get_distance`.  `samples i`
is the value returned by the `i`-th call to `_get_single_distance`;
`fuel` is the number of loop iterations remaining (`sample_count * 2` at
the start), `acc` is `valid_readings` so far.  A positive sample is
appended when it is not an outlier; after handling a positive sample the
loop breaks early once `sample_count` readings have been collected. -/
def collect_loop (s : UltrasonicSensor) (samples : ℕ → ℚ) :
    ℕ → ℕ → List ℚ → List ℚ
  | _, 0, acc => acc
  | i, fuel + 1, acc =>
    let reading := samples i
    if 0 < reading then
      let acc2 := if is_outlier s reading then acc else acc ++ [reading]
      if s.sample_count ≤ acc2.length then acc2
      else collect_loop s samples (i + 1) fuel acc2
    else collect_loop s samples (i + 1) fuel acc

/-- The `valid_readings` list collected by one `get_distance` call. -/
def valid_readings (s : UltrasonicSensor) (samples : ℕ → ℚ) : List ℚ :=
  collect_loop s samples 0 (s.sample_count * 2) []

/-- The `filtered_distance` of one `get_distance` call: the median of
the collected valid readings. -/
def filtered_value (s : UltrasonicSensor) (samples : ℕ → ℚ) : ℚ :=
  median (valid_readings s samples)

/-- The readings buffer after `get_distance` appends the filtered
distance (with `deque` eviction). -/
def new_buffer (s : UltrasonicSensor) (samples : ℕ → ℚ) : List ℚ :=
  dequeAppend s.filter_size s.readings_buffer (filtered_value s samples)

/-- Embedding of `UltrasonicSensor.get_distance`.  Returns the updated
sensor state together with the measured distance (`-1` on failure).
Fewer than 2 valid readings is a failure that leaves the state
untouched; otherwise the median of the valid readings is appended to the
buffer and, once the buffer holds at least 3 readings, the buffer mean
(rounded to 1 decimal) is returned, else the filtered value itself
(rounded to 1 decimal). -/
def get_distance (s : UltrasonicSensor) (samples : ℕ → ℚ) :
    UltrasonicSensor × ℚ :=
  if (valid_readings s samples).length < 2 then (s, -1)
  else if 3 ≤ (new_buffer s samples).length then
    ({ s with readings_buffer := new_buffer s samples
              last_stable_reading := some (mean (new_buffer s samples)) },
     pyRound (mean (new_buffer s samples)) 1)
  else
    ({ s with readings_buffer := new_buffer s samples
              last_stable_reading := some (filtered_value s samples) },
     pyRound (filtered_value s samples) 1)

/-- The quality branch of `UltrasonicSensor.get_distance_with_quality`,
applied to the post-measurement state `s2` and the measured distance. -/
def quality_label (s2 : UltrasonicSensor) (distance : ℚ) : String :=
  if distance < 0 then "poor"
  else if s2.filter_size ≤ s2.readings_buffer.length then
    if 1 < s2.readings_buffer.length then
      if variance s2.readings_buffer < 1 / 2 then "excellent"
      else if variance s2.readings_buffer < 2 then "good"
      else "fair"
    else "good"
  else if 3 ≤ s2.readings_buffer.length then "fair"
  else "poor"

/-- Embedding of `UltrasonicSensor.get_distance_with_quality`: one
`get_distance` call, then a quality label computed from the resulting
state and distance. -/
def get_distance_with_quality (s : UltrasonicSensor) (samples : ℕ → ℚ) :
    UltrasonicSensor × ℚ × String :=
  ((get_distance s samples).1, (get_distance s samples).2,
   quality_label (get_distance s samples).1 (get_distance s samples).2)

/-- Outcome of one echo polling loop in `_get_single_distance`:
the trace ran out (`exhausted`, modelling an unbounded wait), the 0.5 s
timeout fired (`timed_out`), or the echo level flipped and the loop
exited with the last recorded timestamp. -/
inductive EchoPollResult where
  | exhausted : EchoPollResult
  | timed_out : EchoPollResult
  | exited : ℚ → EchoPollResult
deriving DecidableEq

/-- One busy-wait loop of `_get_single_distance`.  Each trace entry is
the pair (echo level read, `time.time()` value read in the loop body).
While the level equals `stay_level` the loop records the new timestamp
and aborts once it exceeds `t0` by more than 0.5 s; a differing level
exits with the previously recorded timestamp `cur`. -/
def poll_until (stay_level : Bool) (t0 : ℚ) :
    List (Bool × ℚ) → ℚ → EchoPollResult
  | [], _ => .exhausted
  | (lvl, t) :: rest, cur =>
    if lvl = stay_level then
      if 1 / 2 < t - t0 then .timed_out
      else poll_until stay_level t0 rest t
    else .exited cur

/-- Embedding of `UltrasonicSensor._get_single_distance` after the
trigger pulse.  `t_start` is the first `time.time()` value (initial
`pulse_start` and `timeout_start`), `high_polls` the first loop's trace
(waiting for the echo to go high), `t_mid` the `time.time()` value taken
between the loops (initial `pulse_end` and `timeout_end`), `low_polls`
the second loop's trace.  `none` models a trace that ends before the
loop does; `some (-1)` is the timeout sentinel; otherwise the pulse
duration is converted to centimeters and rounded to 2 decimals. -/
def get_single_distance (t_start : ℚ) (high_polls : List (Bool × ℚ))
    (t_mid : ℚ) (low_polls : List (Bool × ℚ)) : Option ℚ :=
  match poll_until false t_start high_polls t_start with
  | .exhausted => none
  | .timed_out => some (-1)
  | .exited pulse_start =>
    match poll_until true t_mid low_polls t_mid with
    | .exhausted => none
    | .timed_out => some (-1)
    | .exited pulse_end =>
      some (pyRound ((pulse_end - pulse_start) * 34300 / 2) 2)

/-- The IEEE 754 binary64 value of the Python literal `1.0001`
(`time.time()` returns binary64 floats).  The subtraction `1.0001 - 1.0`
is exact in binary64, as are the subsequent multiplication by `34300`
and division by `2`, so exact rational arithmetic on this value
reproduces the float computation of `_get_single_distance`. -/
def fl_1_0001 : ℚ := 4504049987333233 / 4503599627370496

/-- The state invariant of the data model: the moving-average buffer
never exceeds `filter_size` elements, and a last stable reading exists
exactly when the buffer is non-empty. -/
def SensorInv (s : UltrasonicSensor) : Prop :=
  s.readings_buffer.length ≤ s.filter_size ∧
  (s.last_stable_reading = none ↔ s.readings_buffer = [])

/-- Sensor used in the single-valid-reading scenario: `sample_count = 3`
with remaining constructor defaults, fresh state. -/
def c1S : UltrasonicSensor := ⟨5, 6, 3, 10, 5, [], none⟩

/-- Raw sample sequence with exactly one valid reading (the sequence of
the repository test `test_get_distance_single_reading`): the second
attempt returns `25.0`, every other attempt fails with `-1.0`. -/
def c1Samples : ℕ → ℚ := fun i => if i = 1 then 25 else -1

/-- Sensor whose buffer holds one reading `10.0`, with
`last_stable_reading = 10.0` and default configuration. -/
def c2S : UltrasonicSensor := ⟨5, 6, 5, 10, 5, [10], some 10⟩

/-- Raw sample sequence: two valid readings of `12.0`, then failures. -/
def c2Samples : ℕ → ℚ := fun i => if i < 2 then 12 else -1

/-- Sensor in the adaptive-threshold scenario of the spec and of the
repository test `test_outlier_detection`: `outlier_threshold = 3.0`,
`last_stable_reading = 25.0`, buffer of 2 readings (fewer than 3). -/
def c3S : UltrasonicSensor := ⟨5, 6, 5, 10, 3, [24, 25], some 25⟩

/-- Sensor with a reference reading `10.0` and default threshold. -/
def c4S : UltrasonicSensor := ⟨5, 6, 5, 10, 5, [10], some 10⟩

/-- Raw sample sequence whose first attempt returns the positive outlier
`100.0` (deviation 90 from the reference), then only failures. -/
def c4Samples : ℕ → ℚ := fun i => if i = 0 then 100 else -1

/-- Fresh sensor with `sample_count = 2`. -/
def c5S : UltrasonicSensor := ⟨5, 6, 2, 10, 5, [], none⟩

/-- Raw sample sequence `15.0, 15.1, 15.1, ...`, whose median over the
first two readings is `15.05`. -/
def c5Samples : ℕ → ℚ := fun i => if i = 0 then 15 else 151 / 10

/-- Warm sensor used for the no-data scenario. -/
def w6S : UltrasonicSensor := ⟨5, 6, 5, 10, 5, [25], some 25⟩

/-- Raw sample sequence in which every attempt fails. -/
def w6Samples : ℕ → ℚ := fun _ => -1

/-- Sensor with `sample_count = 2` and buffer `[10, 10]`. -/
def w2S : UltrasonicSensor := ⟨5, 6, 2, 10, 5, [10, 10], some 10⟩

/-- Raw sample sequence of constant valid readings `10.0`. -/
def w2Samples : ℕ → ℚ := fun _ => 10

/-- Sensor with `sample_count = 2` and buffer `[10, 10]`, used to
exhibit a concrete member of `valid_readings`. -/
def w4S : UltrasonicSensor := ⟨5, 6, 2, 10, 5, [10, 10], some 10⟩

/-- Raw sample sequence of constant valid readings `10.0`. -/
def w4Samples : ℕ → ℚ := fun _ => 10

/-- Warm sensor used to instantiate the state invariant. -/
def w9S : UltrasonicSensor := ⟨5, 6, 5, 10, 5, [25], some 25⟩

/-- Raw sample sequence in which every attempt fails. -/
def w9Samples : ℕ → ℚ := fun _ => -1

/-- Sensor with `filter_size = 2` (a positive value permitted by the
data model) whose buffer is already full with two identical readings. -/
def c10S : UltrasonicSensor := ⟨5, 6, 2, 2, 5, [10, 10], some 10⟩

/-- Raw sample sequence of constant valid readings `10.0`. -/
def c10Samples : ℕ → ℚ := fun _ => 10

/-- Sensor with default `filter_size = 10` and three buffered readings. -/
def w10S : UltrasonicSensor := ⟨5, 6, 2, 10, 5, [20, 20, 20], some 20⟩

/-- Raw sample sequence of constant valid readings `20.0`. -/
def w10Samples : ℕ → ℚ := fun _ => 20

theorem collect_loop_of_nonpos (s : UltrasonicSensor) (samples : ℕ → ℚ)
    (h : ∀ i, samples i ≤ 0) :
    ∀ (fuel i : ℕ) (acc : List ℚ), collect_loop s samples i fuel acc = acc := by
  intro fuel
  induction fuel with
  | zero => intro i acc; rfl
  | succ n ih =>
    intro i acc
    simp only [collect_loop]
    rw [if_neg (not_lt.2 (h i))]
    exact ih (i + 1) acc

theorem collect_loop_mem (s : UltrasonicSensor) (samples : ℕ → ℚ) :
    ∀ (fuel i : ℕ) (acc : List ℚ),
      (∀ y ∈ acc, 0 < y ∧ is_outlier s y = false) →
      ∀ x ∈ collect_loop s samples i fuel acc,
        0 < x ∧ is_outlier s x = false := by
  intro fuel
  induction fuel with
  | zero => intro i acc hacc x hx; exact hacc x hx
  | succ n ih =>
    intro i acc hacc x hx
    simp only [collect_loop] at hx
    by_cases hp : 0 < samples i
    · rw [if_pos hp] at hx
      have hacc2 : ∀ y ∈ (if is_outlier s (samples i) then acc
          else acc ++ [samples i]), 0 < y ∧ is_outlier s y = false := by
        intro y hy
        by_cases ho : is_outlier s (samples i)
        · rw [if_pos ho] at hy; exact hacc y hy
        · rw [if_neg ho] at hy
          rcases List.mem_append.1 hy with h1 | h2
          · exact hacc y h1
          · have hy2 : y = samples i := by simpa using h2
            subst hy2
            exact ⟨hp, by simpa using ho⟩
      by_cases hb : s.sample_count ≤
          (if is_outlier s (samples i) then acc else acc ++ [samples i]).length
      · rw [if_pos hb] at hx; exact hacc2 x hx
      · rw [if_neg hb] at hx; exact ih (i + 1) _ hacc2 x hx
    · rw [if_neg hp] at hx
      exact ih (i + 1) acc hacc x hx

theorem dequeAppend_length (m : ℕ) (buf : List ℚ) (x : ℚ) :
    (dequeAppend m buf x).length = min (buf.length + 1) m := by
  simp only [dequeAppend]
  split_ifs with h
  · simp only [List.length_drop, List.length_append, List.length_cons,
      List.length_nil] at *
    omega
  · simp only [List.length_append, List.length_cons, List.length_nil] at *
    omega

theorem poll_until_timeout (stay : Bool) (t0 : ℚ) :
    ∀ (polls : List (Bool × ℚ)) (cur : ℚ),
      (∀ p ∈ polls, p.1 = stay) → (∃ p ∈ polls, t0 + 1 / 2 < p.2) →
      poll_until stay t0 polls cur = .timed_out := by
  intro polls
  induction polls with
  | nil => intro cur _ hex; simp at hex
  | cons hd tl ih =>
    intro cur hall hex
    obtain ⟨lvl, t⟩ := hd
    have hlvl : lvl = stay := hall (lvl, t) (List.mem_cons_self _ _)
    simp only [poll_until]
    rw [if_pos hlvl]
    by_cases ht : 1 / 2 < t - t0
    · rw [if_pos ht]
    · rw [if_neg ht]
      apply ih t
      · intro p hp; exact hall p (List.mem_cons_of_mem _ hp)
      · rcases hex with ⟨p, hp, hpt⟩
        rcases List.mem_cons.1 hp with rfl | hmem
        · exact absurd (by linarith : 1 / 2 < t - t0) ht
        · exact ⟨p, hmem, hpt⟩

/-- C1: in a `get_distance` cycle with exactly one valid raw sample (the
input sequence of the repository test `test_get_distance_single_reading`)
the code collects `valid_readings = [25.0]`, and because it requires at
least 2 valid readings it returns the `-1.0` sentinel with the state
unchanged — contradicting the claim (and the repository test), which
expect the single sample to be used and `25.0` to be returned. -/
theorem single_reading_rejected :
    valid_readings c1S c1Samples = [25] ∧
    get_distance c1S c1Samples = (c1S, -1) := by decide

/-- C2 counterexample: a successful `get_distance` call after which the
buffer holds 2 readings `[10, 12]` returns `12.0` (the rounded filtered
value, with `last_stable_reading = 12`), not
`round(mean([10, 12]), 1) = 11.0` — so the claimed threshold of 2 for
the smoothing path is wrong. -/
theorem measure_smoothing_cex :
    get_distance c2S c2Samples = (⟨5, 6, 5, 10, 5, [10, 12], some 12⟩, 12) ∧
    pyRound (mean [10, 12]) 1 = 11 ∧ ((12 : ℚ) ≠ 11) := by decide

/-- C2 (amended): for every successful `get_distance` call after which
the buffer holds at least 3 readings, the returned value is the buffer
mean rounded to 1 decimal and `last_stable_reading` is set to that
mean. -/
theorem measure_smoothing (s : UltrasonicSensor) (samples : ℕ → ℚ)
    (h2 : 2 ≤ (valid_readings s samples).length)
    (h3 : 3 ≤ (new_buffer s samples).length) :
    get_distance s samples =
      ({ s with readings_buffer := new_buffer s samples
                last_stable_reading := some (mean (new_buffer s samples)) },
       pyRound (mean (new_buffer s samples)) 1) := by
  unfold get_distance
  rw [if_neg (by omega), if_pos h3]

/-- C2 witness: a concrete successful call whose buffer reaches length 3
returns the rounded buffer mean. -/
theorem measure_smoothing_witness :
    get_distance w2S w2Samples = (⟨5, 6, 2, 10, 5, [10, 10, 10], some 10⟩, 10) :=
  (measure_smoothing w2S w2Samples (by decide) (by decide)).trans (by decide)

/-- C3: `_is_outlier` has no adaptive threshold.  In the exact scenario
of the claim, the spec (§4.2) and the repository test
`test_outlier_detection` — threshold `3.0`, reference `25.0`, buffer
with fewer than 3 entries — the code classifies `30.0` as an outlier
(deviation `5.0` is compared with the fixed threshold `3.0`, not the
claimed lenient `6.0`). -/
theorem adaptive_threshold_missing :
    c3S.readings_buffer.length < 3 ∧ is_outlier c3S 30 = true := by decide

/-- C4 counterexample: a positive raw sample (`100.0`) classified as an
outlier arrives while `valid_readings` is empty (fewer than 2 elements),
yet it is not appended: the loop ends with `valid_readings = []` and the
call fails — there is no bootstrap tolerance in the code. -/
theorem bootstrap_tolerance_cex :
    (0 : ℚ) < 100 ∧ is_outlier c4S 100 = true ∧
    valid_readings c4S c4Samples = [] ∧
    get_distance c4S c4Samples = (c4S, -1) := by decide

/-- C4 (amended): every element of `valid_readings` is a positive,
non-outlier sample — a sample classified as an outlier is never
appended, regardless of how few readings have been collected. -/
theorem valid_readings_no_outliers (s : UltrasonicSensor)
    (samples : ℕ → ℚ) (x : ℚ) (hx : x ∈ valid_readings s samples) :
    0 < x ∧ is_outlier s x = false :=
  collect_loop_mem s samples _ 0 [] (by simp) x hx

/-- C4 witness: a concrete collected reading is positive and not an
outlier. -/
theorem valid_readings_no_outliers_witness :
    10 ∈ valid_readings w4S w4Samples ∧
    (0 < (10 : ℚ) ∧ is_outlier w4S 10 = false) :=
  ⟨by decide, valid_readings_no_outliers w4S w4Samples 10 (by decide)⟩

/-- C5 counterexample: a successful call stores the unrounded filtered
value `15.05` in `last_stable_reading` but returns the rounded value
`15.0`, so `last_stable_reading` differs from the value returned to the
caller. -/
theorem last_stable_rounding_cex :
    get_distance c5S c5Samples =
      (⟨5, 6, 2, 10, 5, [301 / 20], some (301 / 20)⟩, 15) ∧
    ((301 / 20 : ℚ) ≠ 15) := by decide

/-- C5 (amended): after every successful `get_distance` call,
`last_stable_reading` holds the unrounded smoothed (or filtered) value,
and the value returned to the caller is that value rounded to 1
decimal. -/
theorem measure_last_stable (s : UltrasonicSensor) (samples : ℕ → ℚ)
    (h2 : 2 ≤ (valid_readings s samples).length) :
    ∃ v, (get_distance s samples).1.last_stable_reading = some v ∧
      (get_distance s samples).2 = pyRound v 1 := by
  unfold get_distance
  rw [if_neg (by omega)]
  by_cases h3 : 3 ≤ (new_buffer s samples).length
  · rw [if_pos h3]
    exact ⟨mean (new_buffer s samples), rfl, rfl⟩
  · rw [if_neg h3]
    exact ⟨filtered_value s samples, rfl, rfl⟩

/-- C5 witness: the concrete run of the counterexample satisfies the
amended statement with `v = 15.05`. -/
theorem measure_last_stable_witness :
    2 ≤ (valid_readings c5S c5Samples).length ∧
    ∃ v, (get_distance c5S c5Samples).1.last_stable_reading = some v ∧
      (get_distance c5S c5Samples).2 = pyRound v 1 :=
  ⟨by decide, measure_last_stable c5S c5Samples (by decide)⟩

/-- C6: if every raw sample attempt in a `get_distance` cycle returns a
value `≤ 0`, no valid readings are collected, the call returns `-1.0`,
and the sensor state (buffer and last stable reading) is exactly the
state before the call. -/
theorem measure_no_data (s : UltrasonicSensor) (samples : ℕ → ℚ)
    (h : ∀ i, samples i ≤ 0) : get_distance s samples = (s, -1) := by
  have hv : valid_readings s samples = [] :=
    collect_loop_of_nonpos s samples h _ 0 []
  simp [get_distance, hv]

/-- C6 witness: all-failure samples on a warm sensor leave it unchanged
and produce the sentinel. -/
theorem measure_no_data_witness : get_distance w6S w6Samples = (w6S, -1) :=
  measure_no_data w6S w6Samples (fun i => by norm_num [w6Samples])

/-- C7: each polling loop of `_get_single_distance` returns the `-1.0`
sentinel when the echo line never changes level and the clock passes the
0.5 s deadline: if every poll of the first loop reads low and some poll
happens more than 0.5 s after `timeout_start`, the call returns `-1.0`;
symmetrically, if the first loop exits and every poll of the second loop
reads high with some poll more than 0.5 s after `timeout_end`, the call
also returns `-1.0`. -/
theorem single_pulse_timeout (t_start t_mid : ℚ)
    (high_polls low_polls : List (Bool × ℚ)) :
    ((∀ p ∈ high_polls, p.1 = false) →
      (∃ p ∈ high_polls, t_start + 1 / 2 < p.2) →
      get_single_distance t_start high_polls t_mid low_polls = some (-1)) ∧
    (∀ ps, poll_until false t_start high_polls t_start = .exited ps →
      (∀ p ∈ low_polls, p.1 = true) →
      (∃ p ∈ low_polls, t_mid + 1 / 2 < p.2) →
      get_single_distance t_start high_polls t_mid low_polls = some (-1)) := by
  constructor
  · intro hall hex
    unfold get_single_distance
    rw [poll_until_timeout false t_start high_polls t_start hall hex]
  · intro ps hps hall hex
    unfold get_single_distance
    rw [hps, poll_until_timeout true t_mid low_polls t_mid hall hex]

/-- C7 witness: a concrete low-stuck trace (the clock reading `1.6` of
the repository timeout test) and a concrete high-stuck trace both
produce the sentinel. -/
theorem single_pulse_timeout_witness :
    get_single_distance 1 [(false, 1), (false, 8 / 5)] 1 [] = some (-1) ∧
    get_single_distance 1 [(true, 0)] 1 [(true, 2)] = some (-1) :=
  ⟨(single_pulse_timeout 1 1 [(false, 1), (false, 8 / 5)] []).1
      (by decide) (by decide),
   (single_pulse_timeout 1 1 [(true, 0)] [(true, 2)]).2 1
      (by decide) (by decide) (by decide)⟩

/-- C8: whenever both polling loops of `_get_single_distance` exit
normally with edge times `pulse_start` and `pulse_end`, the returned
distance is `round((pulse_end - pulse_start) * 34300 / 2, 2)`; and at
the float inputs `pulse_start = 1.0`, `pulse_end = 1.0001` of the claim
(embedded by the exact binary64 value of the literal `1.0001`) this
formula yields `1.71`. -/
theorem single_pulse_distance (t_start t_mid ps pe : ℚ)
    (high_polls low_polls : List (Bool × ℚ))
    (h1 : poll_until false t_start high_polls t_start = .exited ps)
    (h2 : poll_until true t_mid low_polls t_mid = .exited pe) :
    get_single_distance t_start high_polls t_mid low_polls =
      some (pyRound ((pe - ps) * 34300 / 2) 2) ∧
    pyRound ((fl_1_0001 - 1) * 34300 / 2) 2 = 171 / 100 := by
  constructor
  · unfold get_single_distance
    rw [h1, h2]
  · decide

/-- C8 witness: a concrete pulse with `pulse_start = 1.0` and
`pulse_end` the binary64 value of `1.0001` measures `1.71` cm. -/
theorem single_pulse_distance_witness :
    get_single_distance 1 [(false, 1), (true, 0)] 1
      [(true, fl_1_0001), (false, 0)] = some (171 / 100) := by
  have h := single_pulse_distance 1 1 1 fl_1_0001
    [(false, 1), (true, 0)] [(true, fl_1_0001), (false, 0)]
    (by decide) (by decide)
  rw [h.1, h.2]

/-- C9: the data-model invariant — buffer bounded by `filter_size` and
`last_stable_reading` present iff the buffer is non-empty — holds for
every freshly constructed sensor and is preserved by every
`get_distance` call (successful or failed) on a sensor with a positive
`filter_size` (the data model requires `filter_size` to be a positive
integer); moreover a warm sensor (`last_stable_reading` present) never
reverts to cold. -/
theorem sensor_invariant (trig echo : ℤ) (sc fs : ℕ) (ot : ℚ)
    (s : UltrasonicSensor) (samples : ℕ → ℚ)
    (hfs : 1 ≤ s.filter_size) (hs : SensorInv s) :
    SensorInv (init_sensor trig echo sc fs ot) ∧
    SensorInv (get_distance s samples).1 ∧
    (s.last_stable_reading ≠ none →
      (get_distance s samples).1.last_stable_reading ≠ none) := by
  have hlen := dequeAppend_length s.filter_size s.readings_buffer
    (filtered_value s samples)
  refine ⟨⟨by simp [init_sensor], by simp [init_sensor]⟩, ?_, ?_⟩
  · unfold get_distance
    split_ifs with h1 h2
    · exact hs
    · refine ⟨?_, ?_⟩
      · show (new_buffer s samples).length ≤ s.filter_size
        rw [new_buffer, hlen]; omega
      · show some (mean (new_buffer s samples)) = none ↔
          new_buffer s samples = []
        constructor
        · intro hc; exact absurd hc (by simp)
        · intro hnil
          have h0 : (new_buffer s samples).length = 0 := by
            rw [hnil]; rfl
          rw [new_buffer, hlen] at h0; omega
    · refine ⟨?_, ?_⟩
      · show (new_buffer s samples).length ≤ s.filter_size
        rw [new_buffer, hlen]; omega
      · show some (filtered_value s samples) = none ↔
          new_buffer s samples = []
        constructor
        · intro hc; exact absurd hc (by simp)
        · intro hnil
          have h0 : (new_buffer s samples).length = 0 := by
            rw [hnil]; rfl
          rw [new_buffer, hlen] at h0; omega
  · intro hwarm
    unfold get_distance
    split_ifs with h1 h2
    · exact hwarm
    · simp
    · simp

/-- C9 witness: the invariant instantiated on a concrete warm sensor
fed an all-failure sample sequence. -/
theorem sensor_invariant_witness :
    SensorInv (init_sensor 5 6 5 10 5) ∧
    SensorInv (get_distance w9S w9Samples).1 ∧
    (w9S.last_stable_reading ≠ none →
      (get_distance w9S w9Samples).1.last_stable_reading ≠ none) :=
  sensor_invariant 5 6 5 10 5 w9S w9Samples (by decide) ⟨by decide, by decide⟩

theorem quality_label_poor_iff (s2 : UltrasonicSensor) (d : ℚ) :
    quality_label s2 d = "poor" ↔
      (d < 0 ∨ (s2.readings_buffer.length < 3 ∧
        s2.readings_buffer.length < s2.filter_size)) := by
  unfold quality_label
  split_ifs with h1 h2 h3 h4 h5 h6
  · exact iff_of_true rfl (Or.inl h1)
  · refine iff_of_false (by decide) ?_
    rintro (h | ⟨ha, hb⟩)
    · exact h1 h
    · omega
  · refine iff_of_false (by decide) ?_
    rintro (h | ⟨ha, hb⟩)
    · exact h1 h
    · omega
  · refine iff_of_false (by decide) ?_
    rintro (h | ⟨ha, hb⟩)
    · exact h1 h
    · omega
  · refine iff_of_false (by decide) ?_
    rintro (h | ⟨ha, hb⟩)
    · exact h1 h
    · omega
  · refine iff_of_false (by decide) ?_
    rintro (h | ⟨ha, hb⟩)
    · exact h1 h
    · omega
  · exact iff_of_true rfl (Or.inr (by omega))

theorem quality_label_fair_mid (s2 : UltrasonicSensor) (d : ℚ)
    (hd : 0 ≤ d) (h3 : 3 ≤ s2.readings_buffer.length)
    (hlt : s2.readings_buffer.length < s2.filter_size) :
    quality_label s2 d = "fair" := by
  unfold quality_label
  rw [if_neg (not_lt.2 hd), if_neg (by omega), if_pos h3]

theorem quality_label_fair_noisy (s2 : UltrasonicSensor) (d : ℚ)
    (hd : 0 ≤ d) (hf : s2.filter_size ≤ s2.readings_buffer.length)
    (h1 : 1 < s2.readings_buffer.length)
    (hv : 2 ≤ variance s2.readings_buffer) :
    quality_label s2 d = "fair" := by
  unfold quality_label
  rw [if_neg (not_lt.2 hd), if_pos hf, if_pos h1,
    if_neg (not_lt.2 (by linarith)), if_neg (not_lt.2 hv)]

theorem quality_label_excellent (s2 : UltrasonicSensor) (d : ℚ)
    (h : quality_label s2 d = "excellent") :
    s2.filter_size ≤ s2.readings_buffer.length ∧
    1 < s2.readings_buffer.length ∧
    variance s2.readings_buffer < 1 / 2 := by
  unfold quality_label at h
  split_ifs at h with h1 h2 h3 h4 h5 h6
  · exact absurd h (by decide)
  · exact ⟨h2, h3, h4⟩
  · exact absurd h (by decide)
  · exact absurd h (by decide)
  · exact absurd h (by decide)
  · exact absurd h (by decide)
  · exact absurd h (by decide)

/-- C10 counterexample: with the positive configuration
`filter_size = 2`, a successful call leaves a full, perfectly stable
buffer of 2 readings and `get_distance_with_quality` reports
`"excellent"` although the buffer holds fewer than 3 readings — the
claimed "poor whenever the buffer holds fewer than 3 readings" clause is
wrong. -/
theorem quality_classification_cex :
    0 ≤ (get_distance_with_quality c10S c10Samples).2.1 ∧
    (get_distance_with_quality c10S c10Samples).1.readings_buffer.length < 3 ∧
    (get_distance_with_quality c10S c10Samples).2.2 = "excellent" := by
  decide

/-- C10 (amended): `get_distance_with_quality` returns the state and
distance of one `get_distance` call together with a label determined by
them: `"poor"` exactly when the distance is negative or the buffer holds
fewer than 3 readings while also not being full; `"fair"` when the
buffer holds between 3 and `filter_size - 1` readings, or is full (with
more than one element) with variance at least 2; and `"excellent"` only
for a full buffer (more than one element) with variance below 0.5. -/
theorem quality_classification (s : UltrasonicSensor) (samples : ℕ → ℚ) :
    ((get_distance_with_quality s samples).1 = (get_distance s samples).1 ∧
     (get_distance_with_quality s samples).2.1 = (get_distance s samples).2) ∧
    ((get_distance_with_quality s samples).2.2 = "poor" ↔
      ((get_distance s samples).2 < 0 ∨
       ((get_distance s samples).1.readings_buffer.length < 3 ∧
        (get_distance s samples).1.readings_buffer.length <
          (get_distance s samples).1.filter_size))) ∧
    (0 ≤ (get_distance s samples).2 →
      3 ≤ (get_distance s samples).1.readings_buffer.length →
      (get_distance s samples).1.readings_buffer.length <
        (get_distance s samples).1.filter_size →
      (get_distance_with_quality s samples).2.2 = "fair") ∧
    (0 ≤ (get_distance s samples).2 →
      (get_distance s samples).1.filter_size ≤
        (get_distance s samples).1.readings_buffer.length →
      1 < (get_distance s samples).1.readings_buffer.length →
      2 ≤ variance (get_distance s samples).1.readings_buffer →
      (get_distance_with_quality s samples).2.2 = "fair") ∧
    ((get_distance_with_quality s samples).2.2 = "excellent" →
      (get_distance s samples).1.filter_size ≤
        (get_distance s samples).1.readings_buffer.length ∧
      1 < (get_distance s samples).1.readings_buffer.length ∧
      variance (get_distance s samples).1.readings_buffer < 1 / 2) :=
  ⟨⟨rfl, rfl⟩,
   quality_label_poor_iff (get_distance s samples).1 (get_distance s samples).2,
   fun hd h3 hlt => quality_label_fair_mid _ _ hd h3 hlt,
   fun hd hf h1 hv => quality_label_fair_noisy _ _ hd hf h1 hv,
   fun h => quality_label_excellent _ _ h⟩

/-- C10 witness: a concrete successful call with a part-full buffer of 4
readings is labelled `"fair"`. -/
theorem quality_classification_witness :
    (get_distance_with_quality w10S w10Samples).2.2 = "fair" :=
  (quality_classification w10S w10Samples).2.2.1
    (by decide) (by decide) (by decide)
